import Mathlib

/-!
Verification of the RAG pipeline repository (classifier / retriever /
generator / quality checker / answer judge, with a FastAPI front end and an
in-memory sliding-window rate limiter).

Shallow embedding conventions:
* Python floats are modelled as exact rationals (`ℚ`).
* Python `round(x, 2)` is modelled as round-half-to-even at two decimals.
* Fallible operations return `Except`; an uncaught Python exception is the
  `Except.error` case carrying the exception kind / message.
* External collaborators (the OpenAI-backed classifier, retriever, generator
  and per-criterion quality check) are parameters: the pipeline is a function
  of those collaborator functions, exactly following `src/pipeline.py`.
* Wall-clock fields (`processing_time_ms`) and free-form metadata dicts are
  not modelled; no claim mentions them.
-/

/-- Round-half-to-even to an integer, the tie-breaking used by Python built-in
`round`. -/
def roundHalfEven (x : ℚ) : ℤ :=
  let f : ℤ := ⌊x⌋
  let frac : ℚ := x - f
  if frac < 1/2 then f
  else if 1/2 < frac then f + 1
  else if f % 2 = 0 then f else f + 1

/-- Python `round(x, 2)`: round to two decimal places, ties to even. -/
def round2 (x : ℚ) : ℚ :=
  (roundHalfEven (x * 100) : ℚ) / 100

/-! ## Data models, from `src/models.py` -/

/-- `Classification` (src/models.py): result of the intent classifier. -/
structure Classification where
  category : String
  confidence : ℚ
  reasoning : String
  needs_context : Bool
deriving DecidableEq, Repr

/-- `GeneratedAnswer` (src/models.py). -/
structure GeneratedAnswer where
  answer : String
  sources_used : List String
  confidence : ℚ
deriving DecidableEq, Repr

/-- `QualityCheck` (src/models.py): one quality-check result. -/
structure QualityCheck where
  check_name : String
  passed : Bool
  explanation : String
  score : ℚ
deriving DecidableEq, Repr

/-- `QualityCheckResult` (src/models.py): the aggregated quality assessment. -/
structure QualityCheckResult where
  checks : List QualityCheck
  overall_score : ℚ
  passed_all : Bool
deriving DecidableEq, Repr

/-- The three verdicts of `JudgeDecision.decision` (src/models.py uses a
string literal type). -/
inductive Decision where
  | accept
  | reject
  | manual_review
deriving DecidableEq, Repr

/-- `JudgeDecision` (src/models.py). -/
structure JudgeDecision where
  decision : Decision
  confidence : ℚ
  reasoning : String
  quality_score : ℚ
deriving DecidableEq, Repr

/-- `PipelineResult` (src/models.py); the wall-clock `processing_time_ms`
field and the metadata dict are not modelled. -/
structure PipelineResult where
  query : String
  classification : Classification
  retrieved_docs : List String
  answer : String
  quality_checks : QualityCheckResult
  judge_decision : JudgeDecision
deriving DecidableEq, Repr

/-! ## Answer judge, from `src/answer_judge.py`

`AnswerJudge.__init__` reads `settings.quality_score_threshold` (default 70,
src/config.py); we pass the threshold as an explicit argument. -/

namespace AnswerJudge

/-- `AnswerJudge._calculate_decision_confidence` (src/answer_judge.py). -/
def calculateDecisionConfidence (quality_score classification_confidence : ℚ) : ℚ :=
  round2 (quality_score / 100 * 0.7 + classification_confidence * 0.3)

/-- `AnswerJudge.judge` (src/answer_judge.py): the if/elif decision chain,
then the decision confidence, blended independently of the branch taken. -/
def judge (threshold : ℚ) (quality_result : QualityCheckResult)
    (classification_confidence : ℚ) : JudgeDecision :=
  let quality_score := quality_result.overall_score
  let dr : Decision × String :=
    if 90 ≤ quality_score ∧ (0.8 : ℚ) ≤ classification_confidence then
      (Decision.accept, "High quality score and high classification confidence")
    else if threshold ≤ quality_score ∧ (0.6 : ℚ) ≤ classification_confidence then
      (Decision.accept, "Quality score meets threshold with reasonable confidence")
    else if 50 ≤ quality_score ∧ quality_score < threshold then
      (Decision.manual_review, "Quality score borderline, requires human review")
    else if quality_result.passed_all = false then
      (Decision.manual_review, "Some quality checks failed")
    else
      (Decision.reject, "Quality score below threshold or low confidence")
  { decision := dr.1
    confidence := calculateDecisionConfidence quality_score classification_confidence
    reasoning := dr.2
    quality_score := quality_score }

end AnswerJudge

/-- First-match evaluation of an ordered guarded-rule list: the verdict of
the first rule whose guard holds, else the default. (Used to state the
spec-side description of the judge as a priority chain.) -/
def firstMatch : List (Bool × Decision) → Decision → Decision
  | [], d => d
  | (g, v) :: rest, d => if g then v else firstMatch rest d

/-- Spec-side description of the judge verdict (from the spec text, to be
compared with `AnswerJudge.judge`): an ordered set of guarded rules, first
match wins. -/
def judgeSpecDecision (threshold quality_score : ℚ) (passed_all : Bool)
    (classification_confidence : ℚ) : Decision :=
  firstMatch
    [ (decide (90 ≤ quality_score ∧ (0.8 : ℚ) ≤ classification_confidence), Decision.accept)
    , (decide (threshold ≤ quality_score ∧ (0.6 : ℚ) ≤ classification_confidence), Decision.accept)
    , (decide (50 ≤ quality_score ∧ quality_score < threshold), Decision.manual_review)
    , (decide (passed_all = false), Decision.manual_review) ]
    Decision.reject

/-! ## Settings, from `src/config.py` (defaults relevant to the claims) -/

/-- The default configuration values of `Settings` (src/config.py). -/
structure Settings where
  retrieval_top_k : ℕ := 3
  min_confidence_threshold : ℚ := 0.7
  quality_score_threshold : ℚ := 70
  rate_limit_requests : ℕ := 10
  rate_limit_window_seconds : ℕ := 60

/-- The global `settings` instance with all defaults (src/config.py). -/
def settings : Settings := {}

/-! ## Quality checker, from `src/quality_check.py`

`_run_single_check` calls the OpenAI API; it is a collaborator parameter
(`run`). The deterministic part — the fixed criteria list and the score
aggregation — is translated below. -/

/-- Exceptions that the modelled Python code can raise. `zeroDivision` is
Python's built-in ZeroDivisionError; `runtime msg` stands for any other
exception whose `str(e)` is `msg`. `invalidInput` / `invalidConfiguration`
are the explicit error kinds the spec talks about; the code never raises
them. -/
inductive PyExc where
  | zeroDivision
  | invalidInput
  | invalidConfiguration
  | runtime (msg : String)
deriving DecidableEq, Repr

/-- `str(e)` for a modelled exception. -/
def PyExc.message : PyExc → String
  | zeroDivision => "division by zero"
  | invalidInput => "invalid input"
  | invalidConfiguration => "invalid configuration"
  | runtime m => m

/-- One entry of the `check_criteria` list in `QualityChecker.check_quality`. -/
structure Criterion where
  name : String
  description : String
deriving DecidableEq, Repr

/-- The fixed five-element `check_criteria` list (src/quality_check.py). -/
def check_criteria : List Criterion :=
  [ ⟨"relevance", "Does the answer directly address the user's query?"⟩
  , ⟨"completeness", "Is the answer complete and thorough?"⟩
  , ⟨"accuracy", "Is the information factually correct based on context?"⟩
  , ⟨"clarity", "Is the answer clear and easy to understand?"⟩
  , ⟨"professionalism", "Is the tone professional and appropriate?"⟩ ]

/-- The aggregation step of `QualityChecker.check_quality`
(src/quality_check.py, lines 65-73):
`overall_score = sum(scores) / len(checks) * 100`, rounded to 2 decimals,
and `passed_all = all(passed)`. On an empty list the Python division
`sum(...) / len(checks)` raises ZeroDivisionError. -/
def aggregate (checks : List QualityCheck) : Except PyExc QualityCheckResult :=
  if checks.length = 0 then
    .error .zeroDivision
  else
    let overall_score := (checks.map (fun c => c.score)).sum / (checks.length : ℚ) * 100
    let passed_all := checks.all (fun c => c.passed)
    .ok { checks := checks
          overall_score := round2 overall_score
          passed_all := passed_all }

/-- The `for criterion in check_criteria` loop of `check_quality`: run each
check in order, collecting the results; the first exception aborts the
loop. -/
def runChecks (run : Criterion → Except PyExc QualityCheck) :
    List Criterion → Except PyExc (List QualityCheck)
  | [] => .ok []
  | cr :: rest =>
    match run cr with
    | .error e => .error e
    | .ok c =>
      match runChecks run rest with
      | .error e => .error e
      | .ok cs => .ok (c :: cs)

/-- `QualityChecker.check_quality` (src/quality_check.py): run every check of
the fixed criteria list in order (`run` stands for `_run_single_check` with
query/answer/context already applied), then aggregate. -/
def check_quality (run : Criterion → Except PyExc QualityCheck) :
    Except PyExc QualityCheckResult :=
  match runChecks run check_criteria with
  | .error e => .error e
  | .ok checks => aggregate checks

/-! ## Input sanitization, from `src/utils.py`

`sanitize_input` does `re.sub(r"<[^>]+>", "", text)`, then
`" ".join(text.split())`, then `.strip()`. The regex removal is a left-to-
right scan: at each `<`, the match extends over one or more non-`>`
characters up to the first `>`; `<>` (nothing between the brackets) is not
a match. -/

/-- Scan for the first `'>'`; return the remainder after it, or `none` when
there is no `'>'`. -/
def tagRemainder : List Char → Option (List Char)
  | [] => none
  | c :: rest => if c = '>' then some rest else tagRemainder rest

/-- Given the characters after a `'<'`, return the remainder after the
closing `'>'` of a `<[^>]+>` match starting at that `'<'`, or `none` when
the regex does not match there (immediate `'>'`, or no `'>'` at all). -/
def tagAfterLt : List Char → Option (List Char)
  | [] => none
  | c :: rest => if c = '>' then none else tagRemainder rest

theorem tagRemainder_length {cs r : List Char} (h : tagRemainder cs = some r) :
    r.length < cs.length := by
  induction cs with
  | nil => simp [tagRemainder] at h
  | cons c rest ih =>
    by_cases hc : c = '>'
    · simp [tagRemainder, hc] at h
      subst h; simp
    · simp [tagRemainder, hc] at h
      exact Nat.lt_succ_of_lt (ih h)

theorem tagAfterLt_length {cs r : List Char} (h : tagAfterLt cs = some r) :
    r.length < cs.length := by
  cases cs with
  | nil => simp [tagAfterLt] at h
  | cons c rest =>
    by_cases hc : c = '>'
    · simp [tagAfterLt, hc] at h
    · simp [tagAfterLt, hc] at h
      exact Nat.lt_succ_of_lt (tagRemainder_length h)

/-- `re.sub(r"<[^>]+>", "", text)` as a left-to-right scan over the
characters. -/
def stripTags : List Char → List Char
  | [] => []
  | c :: rest =>
    if c = '<' then
      match h : tagAfterLt rest with
      | some rest2 => stripTags rest2
      | none => c :: stripTags rest
    else c :: stripTags rest
termination_by cs => cs.length
decreasing_by
  · exact Nat.lt_succ_of_lt (tagAfterLt_length h)
  · simp
  · simp

/-- Python `str.split()` (split on whitespace runs, dropping empty pieces),
on a character list, with an accumulator for the word being read. -/
def splitWsAux : List Char → List Char → List (List Char)
  | [], acc => if acc.isEmpty then [] else [acc.reverse]
  | c :: cs, acc =>
    if c.isWhitespace then
      if acc.isEmpty then splitWsAux cs [] else acc.reverse :: splitWsAux cs []
    else splitWsAux cs (c :: acc)

/-- Python `text.split()`. -/
def pySplit (cs : List Char) : List (List Char) := splitWsAux cs []

/-- Python `" ".join(words)`. -/
def joinWithSpace : List (List Char) → List Char
  | [] => []
  | [w] => w
  | w :: ws => w ++ ' ' :: joinWithSpace ws

/-- Python `str.strip()`: drop whitespace from both ends. -/
def pyStrip (cs : List Char) : List Char :=
  ((cs.dropWhile Char.isWhitespace).reverse.dropWhile Char.isWhitespace).reverse

/-- `sanitize_input` (src/utils.py): strip HTML tags, collapse whitespace
runs to single spaces, strip the ends. -/
def sanitize_input (text : String) : String :=
  String.mk (pyStrip (joinWithSpace (pySplit (stripTags text.data))))

/-! ## Rate limiter, from `src/rate_limiter.py`

`RateLimiter.requests` is a `defaultdict(list)` keyed by client id; each
call touches exactly one client's list, so the state we thread is one
client's timestamp list. Timestamps and `now` are rationals (seconds);
`window = timedelta(seconds=window_seconds)`. -/

namespace RateLimiter

/-- `RateLimiter.is_allowed` (src/rate_limiter.py) acting on one client's
timestamp list: purge entries with `now - timestamp < window` false, then
reject when `max_requests` many remain, else record `now` and allow.
Returns the verdict and the client's new timestamp list. -/
def isAllowedClient (max_requests : ℕ) (window : ℚ) (timestamps : List ℚ)
    (now : ℚ) : Bool × List ℚ :=
  let purged := timestamps.filter (fun t => now - t < window)
  if max_requests ≤ purged.length then (false, purged)
  else (true, purged ++ [now])

/-- The admission procedure as worded by the claim (for comparison with the
code): purge only the timestamps strictly older than `now - window`, i.e.
keep every `t` with `now - window ≤ t`. -/
def claimIsAllowedClient (max_requests : ℕ) (window : ℚ) (timestamps : List ℚ)
    (now : ℚ) : Bool × List ℚ :=
  let kept := timestamps.filter (fun t => now - window ≤ t)
  if max_requests ≤ kept.length then (false, kept)
  else (true, kept ++ [now])

/-- The detail string of the HTTP 429 raised by `RateLimiter.check`. -/
def rateLimitDetail (max_requests window_seconds : ℕ) : String :=
  "Rate limit exceeded. Max " ++ toString max_requests ++
    " requests per " ++ toString window_seconds ++ " seconds."

/-- `RateLimiter.check` (src/rate_limiter.py): run `is_allowed`; on
rejection produce the HTTP 429 error, otherwise nothing. Returns the
error (if any) and the client's new timestamp list. -/
def check (max_requests window_seconds : ℕ) (timestamps : List ℚ) (now : ℚ) :
    Option (ℕ × String) × List ℚ :=
  let ar := isAllowedClient max_requests (window_seconds : ℚ) timestamps now
  if ar.1 then (none, ar.2)
  else (some (429, rateLimitDetail max_requests window_seconds), ar.2)

end RateLimiter

/-! ## Pipeline, from `src/pipeline.py`

The four LLM-backed collaborators are parameters; the orchestration is
translated from `Pipeline.process`. Every call also records a trace of the
stage invocations performed, each carrying the query text the stage was
given, so that "a stage was (not) invoked" is a statement about the trace. -/

/-- One recorded collaborator invocation (with the query text passed). -/
inductive StageCall where
  | classifyCall (query : String)
  | retrieveCall (query : String)
  | generateCall (query : String)
  | qualityCall (query : String)
deriving DecidableEq, Repr

/-- The query text a recorded stage invocation was given. -/
def StageCall.queryOf : StageCall → String
  | classifyCall q => q
  | retrieveCall q => q
  | generateCall q => q
  | qualityCall q => q

/-- Is this trace entry a retrieval invocation? -/
def StageCall.isRetrieve : StageCall → Bool
  | retrieveCall _ => true
  | _ => false

/-- The pipeline's fallible collaborators (the OpenAI-backed classifier,
retriever, generator, and per-criterion quality check). An `Except.error`
is an exception raised by the collaborator. -/
structure Collaborators where
  classify : String → Except PyExc Classification
  retrieve : String → Except PyExc (List String)
  generate : String → Classification → List String → Except PyExc GeneratedAnswer
  runCheck : String → String → List String → Criterion → Except PyExc QualityCheck

/-- Steps 3-5 of `Pipeline.process` (generation, quality check, judgment),
shared by the two retrieval branches. `tr` is the trace so far. -/
def processAfterRetrieval (c : Collaborators) (threshold : ℚ) (query : String)
    (classification : Classification) (retrieved_docs : List String)
    (tr : List StageCall) : Except PyExc PipelineResult × List StageCall :=
  match c.generate query classification retrieved_docs with
  | .error e => (.error e, tr ++ [StageCall.generateCall query])
  | .ok generated =>
    let tr2 := tr ++ [StageCall.generateCall query]
    match check_quality (c.runCheck query generated.answer retrieved_docs) with
    | .error e => (.error e, tr2 ++ [StageCall.qualityCall query])
    | .ok quality_result =>
      let judge_decision :=
        AnswerJudge.judge threshold quality_result classification.confidence
      (.ok { query := query
             classification := classification
             retrieved_docs := retrieved_docs
             answer := generated.answer
             quality_checks := quality_result
             judge_decision := judge_decision },
       tr2 ++ [StageCall.qualityCall query])

/-- `Pipeline.process` (src/pipeline.py): classify; retrieve only when
`needs_context` (else the empty document list); generate; check quality;
judge. There is no try/except: the first collaborator exception aborts the
request, and no later stage is invoked. -/
def Pipeline.process (c : Collaborators) (threshold : ℚ) (query : String) :
    Except PyExc PipelineResult × List StageCall :=
  match c.classify query with
  | .error e => (.error e, [StageCall.classifyCall query])
  | .ok classification =>
    let tr1 := [StageCall.classifyCall query]
    if classification.needs_context then
      match c.retrieve query with
      | .error e => (.error e, tr1 ++ [StageCall.retrieveCall query])
      | .ok docs =>
        processAfterRetrieval c threshold query classification docs
          (tr1 ++ [StageCall.retrieveCall query])
    else
      processAfterRetrieval c threshold query classification [] tr1

/-! ## API endpoints, from `src/main.py`

FastAPI parses and validates the `UserQuery` body (pydantic: `min_length=1`,
`max_length=1000`) before the endpoint body runs; a violation yields a 422
validation error and nothing else happens (we use a fixed detail string for
it). Each endpoint body then (1) consults the rate limiter, (2) sanitizes
the input, (3) runs its stages, wrapping any exception `e` in an
HTTP 500 with detail `"<Stage> error: " + str(e)`. -/

/-- An HTTP response of the modelled API. -/
inductive ApiResponse where
  | okResult (result : PipelineResult)
  | okClassification (c : Classification)
  | okRetrieval (query : String) (docs : List String)
  | httpError (status : ℕ) (detail : String)
deriving DecidableEq, Repr

/-- The HTTP status of a response (200 for the ok shapes). -/
def ApiResponse.statusOf : ApiResponse → ℕ
  | httpError st _ => st
  | _ => 200

/-- The `POST /process` endpoint `process_query` (src/main.py): pydantic
validation, rate limiting, sanitization, then the full pipeline; a pipeline
exception becomes HTTP 500 with detail `"Pipeline error: " + str(e)`.
Returns the response, the client's new rate-limiter timestamp list, and
the trace of pipeline-stage invocations. -/
def process_query (c : Collaborators) (threshold : ℚ)
    (max_requests window_seconds : ℕ) (timestamps : List ℚ) (now : ℚ)
    (text : String) : ApiResponse × List ℚ × List StageCall :=
  if text.length < 1 ∨ 1000 < text.length then
    (.httpError 422 "query validation error", timestamps, [])
  else
    match RateLimiter.check max_requests window_seconds timestamps now with
    | (some st_d, ts2) => (.httpError st_d.1 st_d.2, ts2, [])
    | (none, ts2) =>
      let clean_text := sanitize_input text
      match Pipeline.process c threshold clean_text with
      | (.ok result, tr) => (.okResult result, ts2, tr)
      | (.error e, tr) =>
        (.httpError 500 ("Pipeline error: " ++ e.message), ts2, tr)

/-- The `POST /classify` endpoint `classify_only` (src/main.py): validation,
rate limiting, sanitization, then the classifier alone; an exception becomes
HTTP 500 with detail `"Classification error: " + str(e)`. -/
def classify_only (c : Collaborators) (max_requests window_seconds : ℕ)
    (timestamps : List ℚ) (now : ℚ) (text : String) :
    ApiResponse × List ℚ × List StageCall :=
  if text.length < 1 ∨ 1000 < text.length then
    (.httpError 422 "query validation error", timestamps, [])
  else
    match RateLimiter.check max_requests window_seconds timestamps now with
    | (some st_d, ts2) => (.httpError st_d.1 st_d.2, ts2, [])
    | (none, ts2) =>
      let clean_text := sanitize_input text
      match c.classify clean_text with
      | .ok cl => (.okClassification cl, ts2, [StageCall.classifyCall clean_text])
      | .error e =>
        (.httpError 500 ("Classification error: " ++ e.message), ts2,
         [StageCall.classifyCall clean_text])

/-- The `POST /retrieve` endpoint `retrieve_only` (src/main.py): validation,
rate limiting, sanitization, then the retriever alone; an exception becomes
HTTP 500 with detail `"Retrieval error: " + str(e)`. -/
def retrieve_only (c : Collaborators) (max_requests window_seconds : ℕ)
    (timestamps : List ℚ) (now : ℚ) (text : String) :
    ApiResponse × List ℚ × List StageCall :=
  if text.length < 1 ∨ 1000 < text.length then
    (.httpError 422 "query validation error", timestamps, [])
  else
    match RateLimiter.check max_requests window_seconds timestamps now with
    | (some st_d, ts2) => (.httpError st_d.1 st_d.2, ts2, [])
    | (none, ts2) =>
      let clean_text := sanitize_input text
      match c.retrieve clean_text with
      | .ok docs => (.okRetrieval clean_text docs, ts2, [StageCall.retrieveCall clean_text])
      | .error e =>
        (.httpError 500 ("Retrieval error: " ++ e.message), ts2,
         [StageCall.retrieveCall clean_text])

/-! ## Claims -/

/-- C1: for every overall score, passed-all flag and classification
confidence, `AnswerJudge.judge` returns the verdict of the first matching
rule in the fixed order (1) score ≥ 90 and confidence ≥ 0.8 → accept,
(2) score ≥ threshold and confidence ≥ 0.6 → accept,
(3) 50 ≤ score < threshold → manual_review, (4) not passed_all →
manual_review, (5) otherwise reject; in particular a score of exactly 90
with confidence exactly 0.8 takes rule 1, a score exactly at the threshold
with confidence below 0.6 skips rule 3 and falls to rule 4 or 5, and for
50 ≤ score < threshold rule 3 fires even when passed_all is false. -/
theorem judge_first_match_rules (threshold quality_score classification_confidence : ℚ)
    (passed_all : Bool) (checks : List QualityCheck)
    (hqs : 0 ≤ quality_score ∧ quality_score ≤ 100)
    (hcc : 0 ≤ classification_confidence ∧ classification_confidence ≤ 1) :
    (AnswerJudge.judge threshold ⟨checks, quality_score, passed_all⟩
        classification_confidence).decision
      = judgeSpecDecision threshold quality_score passed_all classification_confidence
    ∧ (90 ≤ quality_score → (0.8 : ℚ) ≤ classification_confidence →
        (AnswerJudge.judge threshold ⟨checks, quality_score, passed_all⟩
            classification_confidence).decision = Decision.accept)
    ∧ (quality_score = threshold → classification_confidence < 0.6 →
        (AnswerJudge.judge threshold ⟨checks, quality_score, passed_all⟩
            classification_confidence).decision
          = if passed_all then Decision.reject else Decision.manual_review)
    ∧ (50 ≤ quality_score → quality_score < threshold → quality_score < 90 →
        (AnswerJudge.judge threshold ⟨checks, quality_score, passed_all⟩
            classification_confidence).decision = Decision.manual_review) := by
  refine ⟨?_, ?_, ?_, ?_⟩
  · simp only [AnswerJudge.judge, judgeSpecDecision, firstMatch]
    by_cases h1 : 90 ≤ quality_score ∧ (0.8 : ℚ) ≤ classification_confidence
    · simp [h1]
    · simp only [h1, if_neg, decide_eq_true_eq, if_false]
      by_cases h2 : threshold ≤ quality_score ∧ (0.6 : ℚ) ≤ classification_confidence
      · simp [h1, h2]
      · by_cases h3 : 50 ≤ quality_score ∧ quality_score < threshold
        · simp [h1, h2, h3]
        · by_cases h4 : passed_all = false
          · simp [h1, h2, h3, h4]
          · simp [h1, h2, h3, h4]
  · intro h1 h2
    simp [AnswerJudge.judge, h1, h2]
  · intro heq hlt
    have hn1 : ¬(90 ≤ quality_score ∧ (0.8 : ℚ) ≤ classification_confidence) := by
      rintro ⟨-, hc⟩; norm_num at hc; linarith
    have hn2 : ¬(threshold ≤ quality_score ∧ (0.6 : ℚ) ≤ classification_confidence) := by
      rintro ⟨-, hc⟩; linarith
    have hn3 : ¬(50 ≤ quality_score ∧ quality_score < threshold) := by
      rintro ⟨-, hc⟩; rw [heq] at hc; exact lt_irrefl _ hc
    cases passed_all with
    | false => simp [AnswerJudge.judge, hn1, hn2, hn3]
    | true => simp [AnswerJudge.judge, hn1, hn2, hn3]
  · intro h50 hthr h90
    have hn1 : ¬(90 ≤ quality_score ∧ (0.8 : ℚ) ≤ classification_confidence) := by
      rintro ⟨hq, -⟩; linarith
    have hn2 : ¬(threshold ≤ quality_score ∧ (0.6 : ℚ) ≤ classification_confidence) := by
      rintro ⟨hq, -⟩; linarith
    simp [AnswerJudge.judge, hn1, hn2, h50, hthr]

/-- C1 witness: at threshold 70, a score of exactly 70 with confidence 0.59
and all checks passed falls through to rule 5 (reject). -/
theorem judge_first_match_rules_witness :
    (AnswerJudge.judge 70 ⟨[], 70, true⟩ (0.59 : ℚ)).decision = Decision.reject := by
  have h := judge_first_match_rules 70 70 (0.59 : ℚ) true []
    (by norm_num) (by norm_num)
  have h2 := h.2.2.1 rfl (by norm_num)
  simpa using h2

/-- C5: the confidence of the returned `JudgeDecision` is always
`round(score/100 * 0.7 + classification_confidence * 0.3, 2)`, whatever
decision rule fired; at score 80 and confidence 0.5 it is 0.71. -/
theorem judge_confidence_blend (threshold : ℚ) (quality_result : QualityCheckResult)
    (classification_confidence : ℚ) :
    (AnswerJudge.judge threshold quality_result classification_confidence).confidence
      = round2 (quality_result.overall_score / 100 * 0.7
          + classification_confidence * 0.3)
    ∧ (AnswerJudge.judge 70 ⟨[], 80, true⟩ (0.5 : ℚ)).confidence = 0.71 := by
  constructor
  · rfl
  · norm_num [AnswerJudge.judge, AnswerJudge.calculateDecisionConfidence,
      round2, roundHalfEven]

/-- When every criterion checks out ok, `runChecks` returns `ok` of a list
of the same length. -/
theorem runChecks_ok_of_forall_ok (run : Criterion → Except PyExc QualityCheck) :
    ∀ l : List Criterion, (∀ cr ∈ l, ∃ c, run cr = .ok c) →
      ∃ cs : List QualityCheck, runChecks run l = .ok cs ∧ cs.length = l.length := by
  intro l
  induction l with
  | nil => intro _; exact ⟨[], rfl, rfl⟩
  | cons cr l ih =>
    intro h
    obtain ⟨c, hc⟩ := h cr (by simp)
    obtain ⟨cs, hcs, hlen⟩ := ih (fun x hx => h x (by simp [hx]))
    exact ⟨c :: cs, by simp [runChecks, hc, hcs], by simp [hlen]⟩

/-- C2: for every non-empty check sequence, the aggregation produces
`overall_score = round(mean(scores) * 100, 2)` (the mean written as
sum over length) and `passed_all` iff every check passed; the result
carries exactly the given checks. -/
theorem aggregate_mean_and_conjunction (cs : List QualityCheck) (h : cs ≠ []) :
    ∃ r, aggregate cs = .ok r
      ∧ r.checks = cs
      ∧ r.overall_score
          = round2 ((cs.map (fun c => c.score)).sum / (cs.length : ℚ) * 100)
      ∧ (r.passed_all = true ↔ ∀ c ∈ cs, c.passed = true) := by
  have hlen : ¬ cs.length = 0 := by simpa using h
  refine ⟨⟨cs, round2 ((cs.map (fun c => c.score)).sum / (cs.length : ℚ) * 100),
          cs.all (fun c => c.passed)⟩, ?_, rfl, rfl, ?_⟩
  · simp only [aggregate, if_neg hlen]
  · simpa using List.all_eq_true (l := cs) (p := fun c => c.passed)

/-- C2 witness: aggregation of a concrete two-check sequence. -/
theorem aggregate_mean_and_conjunction_witness :
    ∃ r, aggregate [⟨"relevance", true, "on topic", 9/10⟩,
                    ⟨"clarity", false, "muddled", 1/2⟩] = .ok r
      ∧ r.checks = [⟨"relevance", true, "on topic", 9/10⟩,
                    ⟨"clarity", false, "muddled", 1/2⟩]
      ∧ r.overall_score
          = round2 (([⟨"relevance", true, "on topic", 9/10⟩,
                      (⟨"clarity", false, "muddled", 1/2⟩ : QualityCheck)].map
                        (fun c => c.score)).sum
                      / (([⟨"relevance", true, "on topic", 9/10⟩,
                           (⟨"clarity", false, "muddled", 1/2⟩ : QualityCheck)].length : ℚ))
                      * 100)
      ∧ (r.passed_all = true ↔
          ∀ c ∈ [⟨"relevance", true, "on topic", 9/10⟩,
                 (⟨"clarity", false, "muddled", 1/2⟩ : QualityCheck)], c.passed = true) :=
  aggregate_mean_and_conjunction _ (by simp)

/-- C7 counterexample: on the empty check list the aggregation fails with
Python's ZeroDivisionError, which is not the explicit InvalidInput /
InvalidConfiguration error the claim requires. -/
theorem aggregate_empty_counterexample :
    aggregate [] = Except.error PyExc.zeroDivision
    ∧ PyExc.zeroDivision ≠ PyExc.invalidInput
    ∧ PyExc.zeroDivision ≠ PyExc.invalidConfiguration := by
  refine ⟨rfl, by simp, by simp⟩

/-- C7 (amended): an empty check list makes the aggregation fail — with an
(unhandled) ZeroDivisionError rather than an explicit InvalidInput /
InvalidConfiguration error; division never silently succeeds on empty
input, every non-empty input is safe, and `check_quality` always hands the
aggregator the five-element criteria results, so the empty case is
unreachable from it. -/
theorem aggregate_empty_zero_division (cs : List QualityCheck) (h : cs ≠ []) :
    (∃ r, aggregate cs = .ok r)
    ∧ aggregate [] = Except.error PyExc.zeroDivision
    ∧ check_criteria.length = 5
    ∧ (∀ run : Criterion → Except PyExc QualityCheck,
        (∀ cr, ∃ c, run cr = .ok c) → ∃ r, check_quality run = .ok r) := by
  refine ⟨?_, rfl, rfl, ?_⟩
  · obtain ⟨r, hr, -⟩ := aggregate_mean_and_conjunction cs h
    exact ⟨r, hr⟩
  · intro run hrun
    obtain ⟨checks, hm, hlen⟩ :=
      runChecks_ok_of_forall_ok run check_criteria (fun cr _ => hrun cr)
    have hne : ¬ checks.length = 0 := by
      rw [hlen]; simp [check_criteria]
    refine ⟨⟨checks,
      round2 ((checks.map (fun c => c.score)).sum / (checks.length : ℚ) * 100),
      checks.all (fun c => c.passed)⟩, ?_⟩
    simp only [check_quality, hm, aggregate, if_neg hne]

/-- C7 witness: a single-check list aggregates successfully, and an
all-passing check runner makes `check_quality` succeed. -/
theorem aggregate_empty_zero_division_witness :
    (∃ r, aggregate [⟨"relevance", true, "on topic", 9/10⟩] = .ok r)
    ∧ (∃ r, check_quality (fun cr => .ok ⟨cr.name, true, "fine", 1⟩) = .ok r) := by
  have h := aggregate_empty_zero_division [⟨"relevance", true, "on topic", 9/10⟩]
    (by simp)
  exact ⟨h.1, h.2.2.2 (fun cr => .ok ⟨cr.name, true, "fine", 1⟩)
    (fun cr => ⟨⟨cr.name, true, "fine", 1⟩, rfl⟩)⟩

/-- C4 counterexample: at the window boundary the code and the claim's
purge rule disagree. With `max_requests = 1`, `window = 60`, one stored
timestamp at 0 and `now = 60`: the claim keeps the timestamp (it is not
strictly older than `now - window = 0`) and rejects, while the code purges
it (`now - t < window` fails at equality) and admits. -/
theorem isAllowedClient_boundary_counterexample :
    RateLimiter.isAllowedClient 1 60 [0] 60 = (true, [60])
    ∧ RateLimiter.claimIsAllowedClient 1 60 [0] 60 = (false, [0])
    ∧ RateLimiter.isAllowedClient 1 60 [0] 60
        ≠ RateLimiter.claimIsAllowedClient 1 60 [0] 60 := by
  refine ⟨?_, ?_, ?_⟩ <;>
    norm_num [RateLimiter.isAllowedClient, RateLimiter.claimIsAllowedClient]

/-- C4 (amended): on each call the limiter first purges every stored
timestamp `t` with `now - t ≥ window` — those at least a full window old,
including one exactly at the boundary, not only those strictly older than
`now - window`; then it rejects (recording nothing beyond the purge) when
`max_requests` many remain, else records `now` and admits. With
`max_requests = 3` and a 60-second window, three admissions inside a window
succeed, a fourth inside the same window is rejected, and once the window
has fully elapsed a new admission succeeds again (sliding, not fixed,
windows). -/
theorem isAllowedClient_amended (max_requests : ℕ) (window : ℚ)
    (timestamps : List ℚ) (now : ℚ) :
    ((RateLimiter.isAllowedClient max_requests window timestamps now).1 = true
      ↔ (timestamps.filter (fun t => now - t < window)).length < max_requests)
    ∧ (RateLimiter.isAllowedClient max_requests window timestamps now).2
        = (if (timestamps.filter (fun t => now - t < window)).length < max_requests
           then timestamps.filter (fun t => now - t < window) ++ [now]
           else timestamps.filter (fun t => now - t < window))
    ∧ RateLimiter.isAllowedClient 3 60 [] 0 = (true, [0])
    ∧ RateLimiter.isAllowedClient 3 60 [0] 10 = (true, [0, 10])
    ∧ RateLimiter.isAllowedClient 3 60 [0, 10] 20 = (true, [0, 10, 20])
    ∧ RateLimiter.isAllowedClient 3 60 [0, 10, 20] 30 = (false, [0, 10, 20])
    ∧ RateLimiter.isAllowedClient 3 60 [0, 10, 20] 90 = (true, [90]) := by
  refine ⟨?_, ?_, ?_, ?_, ?_, ?_, ?_⟩
  · simp only [RateLimiter.isAllowedClient]
    split_ifs with hle
    · simp [Nat.lt_iff_add_one_le]
      omega
    · simp
      omega
  · simp only [RateLimiter.isAllowedClient]
    split_ifs with h1 h2 h2 <;> first | rfl | omega
  all_goals norm_num [RateLimiter.isAllowedClient]

/-- C10: after a call to `is_allowed`, the client's stored list holds only
timestamps `t` with `now - t < window`, its length stays at most
`max_requests` (given it was within the bound before, as every reachable
state is), and a rejected call changes nothing beyond the purge. -/
theorem isAllowedClient_invariant (max_requests : ℕ) (window : ℚ)
    (timestamps : List ℚ) (now : ℚ) (hw : 0 < window)
    (hlen : timestamps.length ≤ max_requests) :
    (∀ t ∈ (RateLimiter.isAllowedClient max_requests window timestamps now).2,
        now - t < window)
    ∧ (RateLimiter.isAllowedClient max_requests window timestamps now).2.length
        ≤ max_requests
    ∧ ((RateLimiter.isAllowedClient max_requests window timestamps now).1 = false →
        (RateLimiter.isAllowedClient max_requests window timestamps now).2
          = timestamps.filter (fun t => now - t < window)) := by
  simp only [RateLimiter.isAllowedClient]
  split_ifs with hle
  · refine ⟨?_, ?_, fun _ => rfl⟩
    · intro t ht
      have := List.mem_filter.mp ht
      simpa using this.2
    · exact le_trans (List.length_filter_le _ _) hlen
  · refine ⟨?_, ?_, by simp⟩
    · intro t ht
      rcases List.mem_append.mp ht with hmem | hnow
      · have := List.mem_filter.mp hmem
        simpa using this.2
      · have : t = now := by simpa using hnow
        subst this
        simpa using hw
    · have : (timestamps.filter (fun t => now - t < window)).length < max_requests :=
        Nat.lt_of_not_le hle
      simp only [List.length_append, List.length_cons, List.length_nil]
      omega

/-- C10 witness: a full window of three requests at limit 3 stays within the
bound and keeps only fresh timestamps. -/
theorem isAllowedClient_invariant_witness :
    (∀ t ∈ (RateLimiter.isAllowedClient 3 60 [0, 10, 20] 30).2,
        (30 : ℚ) - t < 60)
    ∧ (RateLimiter.isAllowedClient 3 60 [0, 10, 20] 30).2.length ≤ 3
    ∧ ((RateLimiter.isAllowedClient 3 60 [0, 10, 20] 30).1 = false →
        (RateLimiter.isAllowedClient 3 60 [0, 10, 20] 30).2
          = [0, 10, 20].filter (fun t => (30 : ℚ) - t < 60)) :=
  isAllowedClient_invariant 3 60 [0, 10, 20] 30 (by norm_num) (by simp)

/-- The trace entries added by the generation/quality/judgment tail of the
pipeline: never a retrieval call, always carrying the query; and a
successful result keeps the given document list and query. -/
theorem processAfterRetrieval_trace (c : Collaborators) (threshold : ℚ)
    (query : String) (classification : Classification)
    (retrieved_docs : List String) (tr : List StageCall) :
    ∃ extra,
      (processAfterRetrieval c threshold query classification retrieved_docs tr).2
        = tr ++ extra
      ∧ (∀ s ∈ extra, s.isRetrieve = false ∧ s.queryOf = query)
      ∧ (∀ r, (processAfterRetrieval c threshold query classification
                  retrieved_docs tr).1 = .ok r →
          r.retrieved_docs = retrieved_docs ∧ r.query = query) := by
  unfold processAfterRetrieval
  cases hg : c.generate query classification retrieved_docs with
  | error e =>
    exact ⟨[StageCall.generateCall query], rfl,
      by simp [StageCall.isRetrieve, StageCall.queryOf], by simp⟩
  | ok generated =>
    cases hq : check_quality (c.runCheck query generated.answer retrieved_docs) with
    | error e =>
      refine ⟨[StageCall.generateCall query, StageCall.qualityCall query], ?_, ?_, ?_⟩
      · simp [hq]
      · simp [StageCall.isRetrieve, StageCall.queryOf]
      · simp [hq]
    | ok quality_result =>
      refine ⟨[StageCall.generateCall query, StageCall.qualityCall query], ?_, ?_, ?_⟩
      · simp [hq]
      · simp [StageCall.isRetrieve, StageCall.queryOf]
      · intro r hr
        simp only [hq, Except.ok.injEq] at hr
        subst hr
        exact ⟨rfl, rfl⟩

/-- C3: when the classifier says `needs_context = false`, the pipeline never
invokes the retrieval collaborator and a successful result carries an empty
retrieved-document list; when it says `needs_context = true`, retrieval is
invoked exactly once, with the query text, before any other downstream
stage (in particular before generation). -/
theorem process_retrieval_gate (c : Collaborators) (threshold : ℚ) (query : String)
    (cl : Classification) (hcl : c.classify query = .ok cl) :
    (cl.needs_context = false →
      (∀ s ∈ (Pipeline.process c threshold query).2, s.isRetrieve = false)
      ∧ (∀ r, (Pipeline.process c threshold query).1 = .ok r →
          r.retrieved_docs = []))
    ∧ (cl.needs_context = true →
      ∃ rest, (Pipeline.process c threshold query).2
          = StageCall.classifyCall query :: StageCall.retrieveCall query :: rest
        ∧ ∀ s ∈ rest, s.isRetrieve = false) := by
  constructor
  · intro hfalse
    have hproc : Pipeline.process c threshold query
        = processAfterRetrieval c threshold query cl []
            [StageCall.classifyCall query] := by
      simp [Pipeline.process, hcl, hfalse]
    obtain ⟨extra, htr, hextra, hres⟩ :=
      processAfterRetrieval_trace c threshold query cl [] [StageCall.classifyCall query]
    constructor
    · intro s hs
      rw [hproc, htr] at hs
      rcases List.mem_append.mp hs with hhead | hex
      · have : s = StageCall.classifyCall query := by simpa using hhead
        subst this
        rfl
      · exact (hextra s hex).1
    · intro r hr
      rw [hproc] at hr
      exact (hres r hr).1
  · intro htrue
    cases hret : c.retrieve query with
    | error e =>
      refine ⟨[], ?_, by simp⟩
      simp [Pipeline.process, hcl, htrue, hret]
    | ok docs =>
      obtain ⟨extra, htr, hextra, -⟩ :=
        processAfterRetrieval_trace c threshold query cl docs
          [StageCall.classifyCall query, StageCall.retrieveCall query]
      refine ⟨extra, ?_, fun s hs => (hextra s hs).1⟩
      have hproc : Pipeline.process c threshold query
          = processAfterRetrieval c threshold query cl docs
              [StageCall.classifyCall query, StageCall.retrieveCall query] := by
        simp [Pipeline.process, hcl, htrue, hret]
      rw [hproc, htr]
      rfl

/-- Sample classification used to instantiate collaborator doubles. -/
def sampleClassification (needs : Bool) : Classification :=
  ⟨"faq", 0.9, "sample classification", needs⟩

/-- An all-succeeding collaborator double, classifying with the given
`needs_context` flag. -/
def okCollaborators (needs : Bool) : Collaborators where
  classify := fun _ => .ok (sampleClassification needs)
  retrieve := fun _ => .ok ["doc one"]
  generate := fun _ _ _ => .ok ⟨"an answer", [], 0.9⟩
  runCheck := fun _ _ _ cr => .ok ⟨cr.name, true, "fine", 9/10⟩

/-- C3 witness: with a classifier double answering `needs_context = false`,
no trace entry of a concrete run is a retrieval call; with
`needs_context = true`, the trace opens with classify-then-retrieve. -/
theorem process_retrieval_gate_witness :
    (∀ s ∈ (Pipeline.process (okCollaborators false) 70 "hi").2,
      s.isRetrieve = false)
    ∧ ∃ rest, (Pipeline.process (okCollaborators true) 70 "hi").2
        = StageCall.classifyCall "hi" :: StageCall.retrieveCall "hi" :: rest
      ∧ ∀ s ∈ rest, s.isRetrieve = false := by
  constructor
  · exact ((process_retrieval_gate (okCollaborators false) 70 "hi"
      (sampleClassification false) rfl).1 rfl).1
  · exact (process_retrieval_gate (okCollaborators true) 70 "hi"
      (sampleClassification true) rfl).2 rfl

/-- A collaborator double whose classifier raises an exception with message
`boom`. -/
def failClassifyCollab : Collaborators where
  classify := fun _ => .error (.runtime "boom")
  retrieve := fun _ => .ok ["doc one"]
  generate := fun _ _ _ => .ok ⟨"an answer", [], 0.9⟩
  runCheck := fun _ _ _ cr => .ok ⟨cr.name, true, "fine", 9/10⟩

/-- A collaborator double that classifies and retrieves fine but whose
generator raises an exception with message `boom`. -/
def failGenerateCollab : Collaborators where
  classify := fun _ => .ok (sampleClassification true)
  retrieve := fun _ => .ok ["doc one"]
  generate := fun _ _ _ => .error (.runtime "boom")
  runCheck := fun _ _ _ cr => .ok ⟨cr.name, true, "fine", 9/10⟩

/-- C6 counterexample: a classification failure and a generation failure
with the same underlying message produce the very same caller-visible
response (HTTP 500, detail `Pipeline error: boom`) — the failure is not
tagged with the failing stage, so the two are not distinguishable by the
caller, even though the pipeline traces show they failed at different
stages. -/
theorem pipeline_failure_not_stage_tagged :
    (Pipeline.process failClassifyCollab 70 (sanitize_input "hello")).2
        = [StageCall.classifyCall (sanitize_input "hello")]
    ∧ (Pipeline.process failGenerateCollab 70 (sanitize_input "hello")).2
        = [StageCall.classifyCall (sanitize_input "hello"),
           StageCall.retrieveCall (sanitize_input "hello"),
           StageCall.generateCall (sanitize_input "hello")]
    ∧ (process_query failClassifyCollab 70 10 60 [] 0 "hello").1
        = (process_query failGenerateCollab 70 10 60 [] 0 "hello").1
    ∧ (process_query failClassifyCollab 70 10 60 [] 0 "hello").1
        = ApiResponse.httpError 500 "Pipeline error: boom" := by
  refine ⟨rfl, rfl, rfl, rfl⟩

/-- C6 (amended): a collaborator failure aborts the request at the failing
stage (no later stage is invoked; in particular, when classification fails
the trace is the classification call alone), and the caller receives a
single HTTP 500 failure carrying the underlying cause message prefixed
`Pipeline error: ` — but no stage tag. -/
theorem pipeline_error_surfacing (c : Collaborators) (threshold : ℚ)
    (max_requests window_seconds : ℕ) (timestamps : List ℚ) (now : ℚ)
    (text : String) (e : PyExc)
    (hv : 1 ≤ text.length ∧ text.length ≤ 1000)
    (hr : (RateLimiter.isAllowedClient max_requests (window_seconds : ℚ)
            timestamps now).1 = true)
    (he : (Pipeline.process c threshold (sanitize_input text)).1 = .error e) :
    (process_query c threshold max_requests window_seconds timestamps now text).1
      = ApiResponse.httpError 500 ("Pipeline error: " ++ e.message)
    ∧ (process_query c threshold max_requests window_seconds timestamps now text).2.2
      = (Pipeline.process c threshold (sanitize_input text)).2
    ∧ (c.classify (sanitize_input text) = .error e →
        (Pipeline.process c threshold (sanitize_input text)).2
          = [StageCall.classifyCall (sanitize_input text)]) := by
  have hnv : ¬(text.length < 1 ∨ 1000 < text.length) := by omega
  have hcheck : RateLimiter.check max_requests window_seconds timestamps now
      = (none, (RateLimiter.isAllowedClient max_requests (window_seconds : ℚ)
                  timestamps now).2) := by
    simp [RateLimiter.check, hr]
  cases hp : Pipeline.process c threshold (sanitize_input text) with
  | mk res tr =>
    rw [hp] at he
    simp only at he
    subst he
    refine ⟨?_, ?_, ?_⟩
    · simp only [process_query, if_neg hnv, hcheck, hp]
    · simp only [process_query, if_neg hnv, hcheck, hp]
    · intro hcl
      simp [Pipeline.process, hcl] at hp ⊢
      exact hp.symm

/-- C6 witness: the amended statement instantiated at the classifier-failure
double. -/
theorem pipeline_error_surfacing_witness :
    (process_query failClassifyCollab 70 10 60 [] 0 "hello").1
      = ApiResponse.httpError 500 ("Pipeline error: " ++ (PyExc.runtime "boom").message)
    ∧ (process_query failClassifyCollab 70 10 60 [] 0 "hello").2.2
      = (Pipeline.process failClassifyCollab 70 (sanitize_input "hello")).2
    ∧ (failClassifyCollab.classify (sanitize_input "hello")
        = .error (PyExc.runtime "boom") →
        (Pipeline.process failClassifyCollab 70 (sanitize_input "hello")).2
          = [StageCall.classifyCall (sanitize_input "hello")]) :=
  pipeline_error_surfacing failClassifyCollab 70 10 60 [] 0 "hello"
    (PyExc.runtime "boom") (by decide) rfl rfl

/-- Every stage invocation recorded by a pipeline run was given exactly the
query the pipeline was given. -/
theorem process_trace_query (c : Collaborators) (threshold : ℚ) (query : String) :
    ∀ s ∈ (Pipeline.process c threshold query).2, s.queryOf = query := by
  cases hcl : c.classify query with
  | error e => simp [Pipeline.process, hcl, StageCall.queryOf]
  | ok cl =>
    cases hn : cl.needs_context with
    | false =>
      obtain ⟨extra, htr, hextra, -⟩ :=
        processAfterRetrieval_trace c threshold query cl []
          [StageCall.classifyCall query]
      have hproc : Pipeline.process c threshold query
          = processAfterRetrieval c threshold query cl []
              [StageCall.classifyCall query] := by
        simp [Pipeline.process, hcl, hn]
      intro s hs
      rw [hproc, htr] at hs
      rcases List.mem_append.mp hs with hhead | hex
      · have : s = StageCall.classifyCall query := by simpa using hhead
        subst this
        rfl
      · exact (hextra s hex).2
    | true =>
      cases hret : c.retrieve query with
      | error e =>
        simp [Pipeline.process, hcl, hn, hret, StageCall.queryOf]
      | ok docs =>
        obtain ⟨extra, htr, hextra, -⟩ :=
          processAfterRetrieval_trace c threshold query cl docs
            [StageCall.classifyCall query, StageCall.retrieveCall query]
        have hproc : Pipeline.process c threshold query
            = processAfterRetrieval c threshold query cl docs
                [StageCall.classifyCall query, StageCall.retrieveCall query] := by
          simp [Pipeline.process, hcl, hn, hret]
        intro s hs
        rw [hproc, htr] at hs
        rcases List.mem_append.mp hs with hhead | hex
        · rcases List.mem_cons.mp hhead with h1 | h2
          · subst h1; rfl
          · have : s = StageCall.retrieveCall query := by simpa using h2
            subst this
            rfl
        · exact (hextra s hex).2

/-- C8: a request whose text has length 0 or above 1000 is rejected with a
422 validation error before any stage is invoked (and before the rate
limiter state changes); every accepted request feeds every invoked stage —
on all three endpoints — exactly the sanitized form of the submitted text
(HTML tags stripped, whitespace collapsed); and an accepted request's text
had length in 1..1000. -/
theorem endpoint_validation_and_sanitization (c : Collaborators) (threshold : ℚ)
    (max_requests window_seconds : ℕ) (timestamps : List ℚ) (now : ℚ)
    (text : String) :
    (text.length = 0 ∨ 1000 < text.length →
      process_query c threshold max_requests window_seconds timestamps now text
        = (ApiResponse.httpError 422 "query validation error", timestamps, []))
    ∧ (1 ≤ text.length → text.length ≤ 1000 →
        (∀ s ∈ (process_query c threshold max_requests window_seconds
                  timestamps now text).2.2,
            s.queryOf = sanitize_input text)
        ∧ (∀ s ∈ (classify_only c max_requests window_seconds
                    timestamps now text).2.2,
            s.queryOf = sanitize_input text)
        ∧ (∀ s ∈ (retrieve_only c max_requests window_seconds
                    timestamps now text).2.2,
            s.queryOf = sanitize_input text))
    ∧ (∀ r, (process_query c threshold max_requests window_seconds
              timestamps now text).1 = ApiResponse.okResult r →
        1 ≤ text.length ∧ text.length ≤ 1000) := by
  refine ⟨?_, ?_, ?_⟩
  · intro hlen
    have hbad : text.length < 1 ∨ 1000 < text.length := by omega
    simp only [process_query, if_pos hbad]
  · intro hv1 hv2
    have hnv : ¬(text.length < 1 ∨ 1000 < text.length) := by omega
    refine ⟨?_, ?_, ?_⟩
    · simp only [process_query, if_neg hnv]
      cases hchk : RateLimiter.check max_requests window_seconds timestamps now with
      | mk err ts2 =>
        cases err with
        | some st_d => simp
        | none =>
          cases hp : Pipeline.process c threshold (sanitize_input text) with
          | mk res tr =>
            have htrq := process_trace_query c threshold (sanitize_input text)
            rw [hp] at htrq
            cases res with
            | ok r => simpa using htrq
            | error e => simpa using htrq
    · simp only [classify_only, if_neg hnv]
      cases hchk : RateLimiter.check max_requests window_seconds timestamps now with
      | mk err ts2 =>
        cases err with
        | some st_d => simp
        | none =>
          cases hcl : c.classify (sanitize_input text) with
          | ok cl => simp [StageCall.queryOf]
          | error e => simp [StageCall.queryOf]
    · simp only [retrieve_only, if_neg hnv]
      cases hchk : RateLimiter.check max_requests window_seconds timestamps now with
      | mk err ts2 =>
        cases err with
        | some st_d => simp
        | none =>
          cases hret : c.retrieve (sanitize_input text) with
          | ok docs => simp [StageCall.queryOf]
          | error e => simp [StageCall.queryOf]
  · intro r hres
    suffices h : ¬(text.length < 1 ∨ 1000 < text.length) by omega
    intro hbad
    rw [process_query] at hres
    simp only [if_pos hbad] at hres
    simp at hres

/-- C8 witness: on a concrete accepted request containing an HTML tag and
excess whitespace, every stage invocation on each endpoint consumed the
sanitized text. -/
theorem endpoint_validation_and_sanitization_witness :
    (∀ s ∈ (process_query (okCollaborators false) 70 10 60 [] 0
              "  hi   <b>there</b> ").2.2,
        s.queryOf = sanitize_input "  hi   <b>there</b> ")
    ∧ (∀ s ∈ (classify_only (okCollaborators false) 10 60 [] 0
                "  hi   <b>there</b> ").2.2,
        s.queryOf = sanitize_input "  hi   <b>there</b> ")
    ∧ (∀ s ∈ (retrieve_only (okCollaborators false) 10 60 [] 0
                "  hi   <b>there</b> ").2.2,
        s.queryOf = sanitize_input "  hi   <b>there</b> ") :=
  (endpoint_validation_and_sanitization (okCollaborators false) 70 10 60 [] 0
    "  hi   <b>there</b> ").2.1 (by decide) (by decide)

/-- C9: on all three endpoints, a request denied by the rate limiter gets
the distinct HTTP 429 rate-limit signal and no pipeline stage is invoked;
the 429 signal differs from every downstream processing failure (which is
an HTTP 500). -/
theorem rate_limiter_guards_all_endpoints (c : Collaborators) (threshold : ℚ)
    (max_requests window_seconds : ℕ) (timestamps : List ℚ) (now : ℚ)
    (text : String)
    (hv : 1 ≤ text.length ∧ text.length ≤ 1000)
    (hd : (RateLimiter.isAllowedClient max_requests (window_seconds : ℚ)
            timestamps now).1 = false) :
    (process_query c threshold max_requests window_seconds timestamps now text).1
      = ApiResponse.httpError 429 (RateLimiter.rateLimitDetail max_requests window_seconds)
    ∧ (process_query c threshold max_requests window_seconds timestamps now text).2.2 = []
    ∧ (classify_only c max_requests window_seconds timestamps now text).1
      = ApiResponse.httpError 429 (RateLimiter.rateLimitDetail max_requests window_seconds)
    ∧ (classify_only c max_requests window_seconds timestamps now text).2.2 = []
    ∧ (retrieve_only c max_requests window_seconds timestamps now text).1
      = ApiResponse.httpError 429 (RateLimiter.rateLimitDetail max_requests window_seconds)
    ∧ (retrieve_only c max_requests window_seconds timestamps now text).2.2 = []
    ∧ (ApiResponse.httpError 429
        (RateLimiter.rateLimitDetail max_requests window_seconds)).statusOf = 429
    ∧ (∀ e : PyExc,
        ApiResponse.httpError 429 (RateLimiter.rateLimitDetail max_requests window_seconds)
          ≠ ApiResponse.httpError 500 ("Pipeline error: " ++ e.message)) := by
  have hnv : ¬(text.length < 1 ∨ 1000 < text.length) := by omega
  have hcheck : RateLimiter.check max_requests window_seconds timestamps now
      = (some (429, RateLimiter.rateLimitDetail max_requests window_seconds),
         (RateLimiter.isAllowedClient max_requests (window_seconds : ℚ)
            timestamps now).2) := by
    simp [RateLimiter.check, hd]
  refine ⟨?_, ?_, ?_, ?_, ?_, ?_, rfl, ?_⟩
  · simp only [process_query, if_neg hnv, hcheck]
  · simp only [process_query, if_neg hnv, hcheck]
  · simp only [classify_only, if_neg hnv, hcheck]
  · simp only [classify_only, if_neg hnv, hcheck]
  · simp only [retrieve_only, if_neg hnv, hcheck]
  · simp only [retrieve_only, if_neg hnv, hcheck]
  · intro e heq
    injection heq with h1 h2
    omega

/-- C9 witness: a concrete client at its limit is turned away with the 429
signal on all three endpoints, with no stage invoked. -/
theorem rate_limiter_guards_all_endpoints_witness :
    (process_query (okCollaborators false) 70 1 60 [10] 30 "hi").1
      = ApiResponse.httpError 429 (RateLimiter.rateLimitDetail 1 60)
    ∧ (process_query (okCollaborators false) 70 1 60 [10] 30 "hi").2.2 = []
    ∧ (classify_only (okCollaborators false) 1 60 [10] 30 "hi").1
      = ApiResponse.httpError 429 (RateLimiter.rateLimitDetail 1 60)
    ∧ (classify_only (okCollaborators false) 1 60 [10] 30 "hi").2.2 = []
    ∧ (retrieve_only (okCollaborators false) 1 60 [10] 30 "hi").1
      = ApiResponse.httpError 429 (RateLimiter.rateLimitDetail 1 60)
    ∧ (retrieve_only (okCollaborators false) 1 60 [10] 30 "hi").2.2 = []
    ∧ (ApiResponse.httpError 429 (RateLimiter.rateLimitDetail 1 60)).statusOf = 429
    ∧ (∀ e : PyExc,
        ApiResponse.httpError 429 (RateLimiter.rateLimitDetail 1 60)
          ≠ ApiResponse.httpError 500 ("Pipeline error: " ++ e.message)) :=
  rate_limiter_guards_all_endpoints (okCollaborators false) 70 1 60 [10] 30 "hi"
    (by decide) (by norm_num [RateLimiter.isAllowedClient])
